import Mathlib

/-!
Shallow embedding of the SEO audit service (`backend/app/main.py`) and
verification of its specified properties.

The page analyzer pipeline is embedded as pure Lean functions:
`parse_seo_elements` over a parsed document, `calculate_seo_score` and
`generate_recommendations` over the extracted signals, and the
`/api/seo/analyze` and `/api/traffic/estimate` endpoint logic over an
abstract fetch outcome.  Python machine arithmetic is modelled with
`Nat`/`Int`/`Rat`: Python `int` is unbounded so `Int` is exact, and the
float operations of the traffic formula are modelled as exact rational
arithmetic.  Python strings are modelled as `String` where only length
and emptiness matter, and as `List Char` where character-level scanning
(prefix / substring tests) matters.
-/

namespace SeoAudit

/-- Python truthiness of an optional string: `not x` is true when the
value is `None` or the empty string.  Used for `not data['title']`,
`not data['meta_description']` and `not img.get('alt')`. -/
def pyFalsy : Option String → Bool
  | none => true
  | some s => s.isEmpty

/-- Python `len` of an optional string; the callers below only apply it
in branches where the value is a non-empty string, mirroring the
`elif` chains of `main.py`. -/
def pyStrLen : Option String → Nat
  | none => 0
  | some s => s.length

/-- The Page Signals record produced by `parse_seo_elements`
(`main.py` lines 144-152): title, meta description, headings by level,
count of images lacking alt text, internal/external link counts, SSL flag. -/
structure PageSignals where
  title : Option String
  meta_description : Option String
  h1 : List String
  h2 : List String
  h3 : List String
  images_without_alt : Nat
  internal_links : Nat
  external_links : Nat
  has_ssl : Bool
  deriving DecidableEq, Repr

/-- `calculate_seo_score` (`main.py` lines 190-201): start at 100,
subtract the penalties in source order, return `max(0, score)`. -/
def calculate_seo_score (data : PageSignals) : Int :=
  let score : Int := 100
  let score := if pyFalsy data.title then score - 15 else score
  let score := if pyFalsy data.meta_description then score - 10 else score
  let score := if data.h1.length ≠ 1 then score - 10 else score
  let score := if data.images_without_alt > 0 then
      score - min (2 * (data.images_without_alt : Int)) 20 else score
  let score := if data.has_ssl then score else score - 20
  let score := if data.internal_links < 3 then score - 5 else score
  max 0 score

/-- The amount subtracted from the score for missing-alt images: the
guarded `score -= min(images_without_alt * 2, 20)` of `main.py` line 197,
as a function of the image count. -/
def imageAltPenalty (n : Nat) : Int :=
  if n > 0 then min (2 * (n : Int)) 20 else 0

/-- The total penalty of the scoring table (spec §4.3), used to relate
`calculate_seo_score` to the spec's additive presentation. -/
def penaltySum (data : PageSignals) : Int :=
  (if pyFalsy data.title then 15 else 0)
    + (if pyFalsy data.meta_description then 10 else 0)
    + (if data.h1.length ≠ 1 then 10 else 0)
    + imageAltPenalty data.images_without_alt
    + (if data.has_ssl then 0 else 20)
    + (if data.internal_links < 3 then 5 else 0)

/-! Recommendation messages, verbatim from `main.py` lines 158-186. -/

def msgTitleMissing : String := "❌ Missing page title - Add a descriptive <title> tag"

def msgTitleTooLong : String := "⚠️ Title too long (>60 chars) - May be truncated in search results"

def msgTitleTooShort : String := "⚠️ Title too short - Consider adding more descriptive keywords"

def msgMetaMissing : String := "❌ Missing meta description - Add a compelling meta description"

def msgMetaTooLong : String := "⚠️ Meta description too long (>160 chars)"

def msgH1Missing : String := "❌ Missing H1 tag - Add one main H1 heading"

def msgH1Multiple : String := "⚠️ Multiple H1 tags - Consider using only one H1 per page"

/-- The f-string of `main.py` line 177 interpolating the image count. -/
def msgImagesAlt (n : Nat) : String :=
  "⚠️ " ++ toString n ++ " images missing alt text - Add descriptive alt attributes"

def msgNoSsl : String := "❌ No SSL certificate - Migrate to HTTPS for better rankings"

def msgLowInternal : String := "💡 Low internal linking - Add more internal links to improve navigation"

def msgAllGood : String := "✅ Great job! No major SEO issues found."

/-- `generate_recommendations` (`main.py` lines 154-188): sequential
conditional appends in source order, then the positive fallback when the
list is still empty. -/
def generate_recommendations (data : PageSignals) : List String :=
  let recommendations : List String := []
  let recommendations :=
    if pyFalsy data.title then recommendations ++ [msgTitleMissing]
    else if pyStrLen data.title > 60 then recommendations ++ [msgTitleTooLong]
    else if pyStrLen data.title < 30 then recommendations ++ [msgTitleTooShort]
    else recommendations
  let recommendations :=
    if pyFalsy data.meta_description then recommendations ++ [msgMetaMissing]
    else if pyStrLen data.meta_description > 160 then recommendations ++ [msgMetaTooLong]
    else recommendations
  let h1_count := data.h1.length
  let recommendations :=
    if h1_count = 0 then recommendations ++ [msgH1Missing]
    else if h1_count > 1 then recommendations ++ [msgH1Multiple]
    else recommendations
  let recommendations :=
    if data.images_without_alt > 0 then
      recommendations ++ [msgImagesAlt data.images_without_alt]
    else recommendations
  let recommendations :=
    if data.has_ssl then recommendations else recommendations ++ [msgNoSsl]
  let recommendations :=
    if data.internal_links < 3 then recommendations ++ [msgLowInternal]
    else recommendations
  if recommendations.isEmpty then recommendations ++ [msgAllGood] else recommendations

/-! The recommendation rules as an ordered table of (guard, message)
pairs, grouped by the source's `if`/`elif` blocks.  A guard holds
exactly when the corresponding `append` of `generate_recommendations`
executes, with the `elif` chains expanded into conjunctions; the table
order is the source order. -/

def titleRules : List ((PageSignals → Bool) × (PageSignals → String)) :=
  [ (fun d => pyFalsy d.title, fun _ => msgTitleMissing),
    (fun d => !pyFalsy d.title && decide (pyStrLen d.title > 60), fun _ => msgTitleTooLong),
    (fun d => !pyFalsy d.title && !decide (pyStrLen d.title > 60)
        && decide (pyStrLen d.title < 30), fun _ => msgTitleTooShort) ]

def metaRules : List ((PageSignals → Bool) × (PageSignals → String)) :=
  [ (fun d => pyFalsy d.meta_description, fun _ => msgMetaMissing),
    (fun d => !pyFalsy d.meta_description && decide (pyStrLen d.meta_description > 160),
      fun _ => msgMetaTooLong) ]

def h1Rules : List ((PageSignals → Bool) × (PageSignals → String)) :=
  [ (fun d => decide (d.h1.length = 0), fun _ => msgH1Missing),
    (fun d => !decide (d.h1.length = 0) && decide (d.h1.length > 1), fun _ => msgH1Multiple) ]

def imgRules : List ((PageSignals → Bool) × (PageSignals → String)) :=
  [ (fun d => decide (d.images_without_alt > 0), fun d => msgImagesAlt d.images_without_alt) ]

def sslRules : List ((PageSignals → Bool) × (PageSignals → String)) :=
  [ (fun d => !d.has_ssl, fun _ => msgNoSsl) ]

def linkRules : List ((PageSignals → Bool) × (PageSignals → String)) :=
  [ (fun d => decide (d.internal_links < 3), fun _ => msgLowInternal) ]

/-- The full rule table, in source order. -/
def recommendationRules : List ((PageSignals → Bool) × (PageSignals → String)) :=
  titleRules ++ metaRules ++ h1Rules ++ imgRules ++ sslRules ++ linkRules

/-- The messages of the fired rules, in table order. -/
def ruleOutputs (data : PageSignals) : List String :=
  (recommendationRules.filter (fun r => r.1 data)).map (fun r => r.2 data)

/-! Each `if`/`elif` block of `generate_recommendations` as the list of
messages it appends, used to relate the sequential appends to the rule
table. -/

/-- Messages the title block appends. -/
def titleRecs (d : PageSignals) : List String :=
  if pyFalsy d.title then [msgTitleMissing]
  else if pyStrLen d.title > 60 then [msgTitleTooLong]
  else if pyStrLen d.title < 30 then [msgTitleTooShort]
  else []

/-- Messages the meta-description block appends. -/
def metaRecs (d : PageSignals) : List String :=
  if pyFalsy d.meta_description then [msgMetaMissing]
  else if pyStrLen d.meta_description > 160 then [msgMetaTooLong]
  else []

/-- Messages the h1 block appends. -/
def h1Recs (d : PageSignals) : List String :=
  if d.h1.length = 0 then [msgH1Missing]
  else if d.h1.length > 1 then [msgH1Multiple]
  else []

/-- Messages the images block appends. -/
def imgRecs (d : PageSignals) : List String :=
  if d.images_without_alt > 0 then [msgImagesAlt d.images_without_alt] else []

/-- Messages the SSL block appends. -/
def sslRecs (d : PageSignals) : List String :=
  if d.has_ssl then [] else [msgNoSsl]

/-- Messages the internal-links block appends. -/
def linkRecs (d : PageSignals) : List String :=
  if d.internal_links < 3 then [msgLowInternal] else []

/-- A concrete perfect-score Page Signals value (40-character title,
meta description present, one h1, no alt-less images, HTTPS, four
internal links), used to instantiate hypothesis-bearing theorems. -/
def samplePage : PageSignals :=
  { title := some (String.mk (List.replicate 40 'a'))
    meta_description := some "All about examples"
    h1 := ["Main"]
    h2 := []
    h3 := []
    images_without_alt := 0
    internal_links := 4
    external_links := 1
    has_ssl := true }

/-! ### Link classification -/

/-- Python `str.startswith(p)` on character lists. -/
def pyStartsWith : List Char → List Char → Bool
  | _, [] => true
  | [], _ :: _ => false
  | c :: cs, p :: ps => c == p && pyStartsWith cs ps

/-- Python substring containment `needle in hay` on character lists. -/
def pyContains (hay needle : List Char) : Bool :=
  pyStartsWith hay needle ||
    match hay with
    | [] => false
    | _ :: t => pyContains t needle

/-- How the link loop of `parse_seo_elements` treats one `<a href>`. -/
inductive LinkClass where
  | internal
  | external
  | neither
  deriving DecidableEq, Repr

/-- The link-classification branch of `parse_seo_elements`
(`main.py` lines 131-139), for one `href` given
`base_domain = urlparse(base_url).netloc`. -/
def classifyLink (base_domain href : List Char) : LinkClass :=
  if pyStartsWith href ("http".data) then
    if pyContains href base_domain then LinkClass.internal else LinkClass.external
  else if pyStartsWith href ("/".data) || !pyStartsWith href ("#".data) then
    LinkClass.internal
  else LinkClass.neither

/-- The characters of a host component: everything up to the first
`/`, `?` or `#`. -/
def takeHost : List Char → List Char
  | [] => []
  | c :: cs => if c = '/' ∨ c = '?' ∨ c = '#' then [] else c :: takeHost cs

/-- The remainder of the list after the first `"//"`, if any. -/
def afterSlashSlash : List Char → Option (List Char)
  | [] => none
  | '/' :: '/' :: rest => some rest
  | _ :: rest => afterSlashSlash rest

/-- Host (network location) of a URL: the characters after the first
`"//"` up to the next `/`, `?` or `#`; empty when the URL has no `"//"`.
This is the spec's notion of the host of an absolute URL, and models
`urlparse(...).netloc` for the `http(s)` URLs the service handles. -/
def urlHost (url : List Char) : List Char :=
  match afterSlashSlash url with
  | some rest => takeHost rest
  | none => []

/-- The spec's link classification (spec §4.2 and §8), written from the
spec's words for comparison with `classifyLink`: internal iff the href
is a same-host absolute URL, a root-relative path, or a relative
non-fragment reference; a different-host absolute URL is external; a
bare fragment is neither. -/
def specClassifyLink (baseHost href : List Char) : LinkClass :=
  if pyStartsWith href ("http".data) then
    if urlHost href = baseHost then LinkClass.internal else LinkClass.external
  else if pyStartsWith href ("/".data) then LinkClass.internal
  else if pyStartsWith href ("#".data) then LinkClass.neither
  else LinkClass.internal

/-! ### The document model and the signal extractor -/

/-- A parsed HTML element: the abstraction of a BeautifulSoup tag as
consumed by `parse_seo_elements` (tag kind plus the attribute values and
stripped text the extractor reads).  The third-party HTML parser that
turns text into such a document is kept abstract. -/
inductive Elem where
  | titleTag (text : String)
  | metaTag (nameAttr : Option String) (content : Option String)
  | h1Tag (text : String)
  | h2Tag (text : String)
  | h3Tag (text : String)
  | imgTag (alt : Option String)
  | aTag (href : Option (List Char))
  | otherTag
  deriving DecidableEq, Repr

/-- `soup.find('title')` followed by `get_text(strip=True)`
(`main.py` lines 108-109): text of the first title tag. -/
def findTitle : List Elem → Option String
  | [] => none
  | Elem.titleTag t :: _ => some t
  | _ :: rest => findTitle rest

/-- `soup.find('meta', attrs={'name': 'description'})` followed by
`.get('content')` (`main.py` lines 112-113): content attribute of the
first meta tag whose name attribute is exactly `"description"`. -/
def findMetaDescContent : List Elem → Option String
  | [] => none
  | Elem.metaTag nm content :: rest =>
      if nm = some "description" then content else findMetaDescContent rest
  | _ :: rest => findMetaDescContent rest

/-- `soup.find_all('h1')` texts, in document order. -/
def h1Texts (doc : List Elem) : List String :=
  doc.filterMap fun e => match e with | Elem.h1Tag t => some t | _ => none

/-- `soup.find_all('h2')` texts, in document order. -/
def h2Texts (doc : List Elem) : List String :=
  doc.filterMap fun e => match e with | Elem.h2Tag t => some t | _ => none

/-- `soup.find_all('h3')` texts, in document order. -/
def h3Texts (doc : List Elem) : List String :=
  doc.filterMap fun e => match e with | Elem.h3Tag t => some t | _ => none

/-- `len([img for img in images if not img.get('alt')])`
(`main.py` lines 123-124): images whose alt attribute is absent or empty. -/
def imagesWithoutAlt (doc : List Elem) : Nat :=
  ((doc.filterMap fun e => match e with | Elem.imgTag alt => some alt | _ => none).filter
    (fun alt => pyFalsy alt)).length

/-- `soup.find_all('a', href=True)` (`main.py` line 127): the hrefs of
the anchors that carry an href attribute, in document order. -/
def hrefList (doc : List Elem) : List (List Char) :=
  doc.filterMap fun e => match e with | Elem.aTag (some h) => some h | _ => none

/-- The counting loop of `main.py` lines 128-139. -/
def countLinks (base_domain : List Char) (hrefs : List (List Char)) : Nat × Nat :=
  hrefs.foldl
    (fun acc href =>
      match classifyLink base_domain href with
      | LinkClass.internal => (acc.1 + 1, acc.2)
      | LinkClass.external => (acc.1, acc.2 + 1)
      | LinkClass.neither => acc)
    (0, 0)

/-- `parse_seo_elements` (`main.py` lines 99-152) over a parsed
document; `base_url` is scanned as characters for
`urlparse(base_url).netloc` and `base_url.startswith('https')`. -/
def parse_seo_elements (doc : List Elem) (base_url : List Char) : PageSignals :=
  let base_domain := urlHost base_url
  let counts := countLinks base_domain (hrefList doc)
  { title := findTitle doc
    meta_description := findMetaDescContent doc
    h1 := h1Texts doc
    h2 := h2Texts doc
    h3 := h3Texts doc
    images_without_alt := imagesWithoutAlt doc
    internal_links := counts.1
    external_links := counts.2
    has_ssl := pyStartsWith base_url ("https".data) }

/-! ### Endpoint logic -/

/-- Outcome of the outbound GET of `fetch_page_content`: either the
request raised (DNS failure, connect timeout, TLS error, ...) or it
returned a body, an HTTP status and an elapsed time in milliseconds. -/
inductive FetchOutcome where
  | failure (msg : String)
  | success (html : List Char) (status : Nat) (load_time_ms : Nat)
  deriving DecidableEq, Repr

/-- `fetch_page_content` (`main.py` lines 77-97): any exception from the
request becomes `HTTPException(status_code=400)`.  Errors are modelled
by their HTTP status code. -/
def fetch_page_content : FetchOutcome → Except Nat (List Char × Nat × Nat)
  | FetchOutcome.failure _ => Except.error 400
  | FetchOutcome.success html status t => Except.ok (html, status, t)

/-- The Audit Report payload of `/api/seo/analyze`
(`main.py` lines 222-234). -/
structure AuditReport where
  url : List Char
  score : Int
  signals : PageSignals
  load_time_ms : Nat
  recommendations : List String
  deriving DecidableEq, Repr

/-- `/api/seo/analyze` (`main.py` lines 203-239): the fetcher's
`HTTPException` propagates (`except HTTPException: raise`), a non-200
status is rejected with 400, otherwise the full Audit Report is built.
The third-party HTML parser is the parameter `parseHtml`. -/
def analyze_seo (parseHtml : List Char → List Elem) (url : List Char)
    (f : FetchOutcome) : Except Nat AuditReport :=
  match fetch_page_content f with
  | Except.error e => Except.error e
  | Except.ok (html, status_code, load_time) =>
    if status_code ≠ 200 then Except.error 400
    else
      let seo_data := parse_seo_elements (parseHtml html) url
      Except.ok
        { url := url
          score := calculate_seo_score seo_data
          signals := seo_data
          load_time_ms := load_time
          recommendations := generate_recommendations seo_data }

/-- Python `int()` truncation toward zero, on an exact rational. -/
def pyTrunc (q : ℚ) : Int := if 0 ≤ q then ⌊q⌋ else ⌈q⌉

/-- `domain_age_factor` (`main.py` line 298). -/
def domain_age_factor : ℚ := 50

/-- Round a rational to the nearest integer, ties to the even integer:
the tie-breaking rule of IEEE-754 round-to-nearest-even, at integer
granularity. -/
def roundHalfEven (x : ℚ) : Int :=
  if x - ⌊x⌋ < 1 / 2 then ⌊x⌋
  else if 1 / 2 < x - ⌊x⌋ then ⌊x⌋ + 1
  else if ⌊x⌋ % 2 = 0 then ⌊x⌋ else ⌊x⌋ + 1

/-- Round a positive rational to the nearest IEEE-754 binary64 value
(53-bit significand, round to nearest, ties to even), as an exact
rational: scale by a power of two so the value lies in `[2^52, 2^53)`,
round to an integer significand, and scale back. -/
def flPos (q : ℚ) : ℚ :=
  (roundHalfEven (q * 2 ^ ((52 : Int) - Int.log 2 q)) : ℚ) * 2 ^ (Int.log 2 q - 52)

/-- The IEEE-754 binary64 rounding of an exact rational value: what a
Python float arithmetic operation stores when its exact result is `q`.
Overflow to infinity (magnitudes `2^1024` and above) and subnormals
(below `2^-1022`) are outside every magnitude the traffic formula can
reach before exhausting memory and are not modelled. -/
def fl (q : ℚ) : ℚ :=
  if q = 0 then 0
  else if 0 < q then flPos q
  else -flPos (-q)

/-- The heuristic numbers of `estimate_traffic` (`main.py` lines
300-312): estimated pages, estimated monthly visits, estimated page
views.  Python evaluates the visits formula in binary64 floating
point; every operation that rounds is wrapped in `fl`:
`seo_score / 100` and `domain_age_factor / 50` are correctly-rounded
true divisions, each `*` with a float operand converts the int operand
to float (`fl` of it) and rounds the product, and `int(...)` truncates.
`pages_estimated * 100` is exact int arithmetic, the literal `1.5` is
the exactly representable `3 / 2`, and `max(100, x)` compares the int
100 with the float exactly.  `content_length = len(html)` is the
character count of the decoded body. -/
def trafficNumbers (html : List Char) (seo_score : Int) : Nat × Int × Int :=
  let content_length := html.length
  let pages_estimated := max 1 (content_length / 50000)
  let estimated_monthly_visits : ℚ :=
    fl (fl (fl ((pages_estimated : ℚ) * 100) * fl ((seo_score : ℚ) / 100))
      * fl (domain_age_factor / 50))
  let visits := pyTrunc (max 100 estimated_monthly_visits)
  let estimated_page_views := pyTrunc (fl (fl ((visits : ℚ)) * (3 / 2)))
  (pages_estimated, visits, estimated_page_views)

/-- The numeric part of the `/api/traffic/estimate` payload
(`main.py` lines 314-330). -/
structure TrafficEstimate where
  url : List Char
  estimated_monthly_visits : Int
  estimated_monthly_pageviews : Int
  estimated_pages : Nat
  seo_score : Int
  deriving DecidableEq, Repr

/-- `/api/traffic/estimate` (`main.py` lines 280-333): the whole body is
wrapped in a bare `except Exception`, which also catches the fetcher's
`HTTPException(400)` and re-raises it as a 500; the HTTP status of the
fetched page is never checked. -/
def estimate_traffic (parseHtml : List Char → List Elem) (url : List Char)
    (f : FetchOutcome) : Except Nat TrafficEstimate :=
  match fetch_page_content f with
  | Except.error _ => Except.error 500
  | Except.ok (html, _status_code, _load_time) =>
    let seo_data := parse_seo_elements (parseHtml html) url
    let seo_score := calculate_seo_score seo_data
    let numbers := trafficNumbers html seo_score
    Except.ok
      { url := url
        estimated_monthly_visits := numbers.2.1
        estimated_monthly_pageviews := numbers.2.2
        estimated_pages := numbers.1
        seo_score := seo_score }

/-- UTF-8 byte size of a character list: the byte length of the text,
as opposed to its character count.  Written from the spec's words
("content-byte-length") for comparison with `trafficNumbers`. -/
def utf8Len (l : List Char) : Nat := (l.map Char.utf8Size).sum

/-- The estimated-pages formula as the spec words it:
`max(1, content-byte-length / 50000)` (integer division). -/
def specPagesEstimated (html : List Char) : Nat := max 1 (utf8Len html / 50000)

/-! ## Theorems -/

theorem imageAltPenalty_nonneg (n : Nat) : 0 ≤ imageAltPenalty n := by
  unfold imageAltPenalty
  split
  · exact le_min (by positivity) (by norm_num)
  · rfl

theorem imageAltPenalty_le_20 (n : Nat) : imageAltPenalty n ≤ 20 := by
  unfold imageAltPenalty
  split
  · exact min_le_right _ _
  · norm_num

/-- The sequential subtractions of `calculate_seo_score` add up to the
penalty table: the score is `max 0 (100 - penaltySum)`. -/
theorem calculate_seo_score_eq (data : PageSignals) :
    calculate_seo_score data = max 0 (100 - penaltySum data) := by
  unfold calculate_seo_score penaltySum imageAltPenalty
  split_ifs <;> ring_nf

theorem penaltySum_nonneg (data : PageSignals) : 0 ≤ penaltySum data := by
  unfold penaltySum
  have h := imageAltPenalty_nonneg data.images_without_alt
  split_ifs <;> omega

theorem penaltySum_le_80 (data : PageSignals) : penaltySum data ≤ 80 := by
  unfold penaltySum
  have h := imageAltPenalty_le_20 data.images_without_alt
  split_ifs <;> omega

/-- Claim C1: for every Page Signals input the score equals
`max 0 (100 - penaltySum)`, where `penaltySum` is exactly the spec's
penalty table (no title 15, no meta description 10, h1 count ≠ 1 10,
missing-alt images 2 each capped at 20, not HTTPS 20, internal links
< 3 5), and the score is an integer in [0, 100]. -/
theorem score_in_range_and_is_table (data : PageSignals) :
    calculate_seo_score data = max 0 (100 - penaltySum data) ∧
    0 ≤ calculate_seo_score data ∧ calculate_seo_score data ≤ 100 := by
  refine ⟨calculate_seo_score_eq data, ?_, ?_⟩ <;>
  · rw [calculate_seo_score_eq data]
    have h1 := penaltySum_nonneg data
    have h2 := penaltySum_le_80 data
    omega

/-- Claim C9: the total penalty is at most 80, so the score is at least
20 and the `max(0, ·)` floor of `calculate_seo_score` is never the
active branch: the score equals the unclamped `100 - penaltySum`. -/
theorem score_at_least_20 (data : PageSignals) :
    20 ≤ calculate_seo_score data ∧
    calculate_seo_score data = 100 - penaltySum data := by
  have h1 := penaltySum_nonneg data
  have h2 := penaltySum_le_80 data
  rw [calculate_seo_score_eq data]
  constructor <;> omega

/-- Claim C2: the image-alt penalty equals `min (2 * n) 20`, is
monotonically non-decreasing in the count, takes the values 0, 10, 20
at counts 0, 5, 15, and raising the count never raises the score. -/
theorem image_alt_penalty_capped_monotone (n m : Nat) (d : PageSignals) (h : n ≤ m) :
    imageAltPenalty n = min (2 * (n : Int)) 20 ∧
    imageAltPenalty n ≤ imageAltPenalty m ∧
    imageAltPenalty 0 = 0 ∧ imageAltPenalty 5 = 10 ∧ imageAltPenalty 15 = 20 ∧
    calculate_seo_score { d with images_without_alt := m } ≤
      calculate_seo_score { d with images_without_alt := n } := by
  have hmono : ∀ a b : Nat, a ≤ b → imageAltPenalty a ≤ imageAltPenalty b := by
    intro a b hab
    unfold imageAltPenalty
    have : (a : Int) ≤ (b : Int) := by exact_mod_cast hab
    rcases le_or_lt (2 * (a : Int)) 20 with h20 | h20 <;> split_ifs <;>
      simp_all [min_def] <;> split_ifs <;> omega
  refine ⟨?_, hmono n m h, by decide, by decide, by decide, ?_⟩
  · unfold imageAltPenalty
    split_ifs with hn
    · rfl
    · have : n = 0 := by omega
      subst this
      simp
  · rw [calculate_seo_score_eq, calculate_seo_score_eq]
    have hp := hmono n m h
    unfold penaltySum
    simp only
    split_ifs <;> omega

/-- Witness for `image_alt_penalty_capped_monotone` at counts 2 ≤ 7 on
the sample page. -/
theorem image_alt_penalty_capped_monotone_witness :
    imageAltPenalty 2 = min (2 * (2 : Int)) 20 ∧
    imageAltPenalty 2 ≤ imageAltPenalty 7 ∧
    imageAltPenalty 0 = 0 ∧ imageAltPenalty 5 = 10 ∧ imageAltPenalty 15 = 20 ∧
    calculate_seo_score { samplePage with images_without_alt := 7 } ≤
      calculate_seo_score { samplePage with images_without_alt := 2 } :=
  image_alt_penalty_capped_monotone 2 7 samplePage (by decide)

/-- Claim C3: a Page Signals input with no title scores exactly 15 less
than the otherwise-identical input with a well-sized (30-60 character)
title. -/
theorem missing_title_costs_15 (d : PageSignals) (t : String)
    (ht : d.title = some t) (hlo : 30 ≤ t.length) (hhi : t.length ≤ 60) :
    calculate_seo_score { d with title := none } = calculate_seo_score d - 15 := by
  have hfalsy : pyFalsy d.title = false := by
    rw [ht]
    unfold pyFalsy
    by_cases he : t.isEmpty
    · rw [String.isEmpty_iff] at he
      subst he
      simp at hlo
    · simpa using he
  have hps : penaltySum { d with title := none } = penaltySum d + 15 := by
    unfold penaltySum
    simp only [hfalsy, Bool.false_eq_true, if_false]
    norm_num [pyFalsy]
    omega
  have hb1 := penaltySum_nonneg d
  have hb3 := penaltySum_le_80 { d with title := none }
  rw [hps] at hb3
  rw [calculate_seo_score_eq, calculate_seo_score_eq, hps]
  omega

/-- Witness for `missing_title_costs_15`: the sample page (40-character
title) against the same page without a title. -/
theorem missing_title_costs_15_witness :
    calculate_seo_score { samplePage with title := none } =
      calculate_seo_score samplePage - 15 :=
  missing_title_costs_15 samplePage (String.mk (List.replicate 40 'a')) rfl
    (by decide) (by decide)

theorem append_ite {α : Type} (c : Prop) [Decidable c] (r a b : List α) :
    (if c then r ++ a else r ++ b) = r ++ (if c then a else b) := by
  split <;> rfl

theorem append_ite1 {α : Type} (c : Prop) [Decidable c] (r a : List α) :
    (if c then r ++ a else r) = r ++ (if c then a else []) := by
  split <;> simp

theorem append_ite1r {α : Type} (c : Prop) [Decidable c] (r a : List α) :
    (if c then r else r ++ a) = r ++ (if c then [] else a) := by
  split <;> simp

theorem isEmpty_append_fallback (t m h i s l : List String) :
    t ++ (m ++ (h ++ (i ++ (s ++ (l ++
        (if (t ++ (m ++ (h ++ (i ++ (s ++ l))))).isEmpty then [msgAllGood] else []))))))
      = if (t ++ (m ++ (h ++ (i ++ (s ++ l))))).isEmpty then [msgAllGood]
        else t ++ (m ++ (h ++ (i ++ (s ++ l)))) := by
  by_cases hE : (t ++ (m ++ (h ++ (i ++ (s ++ l))))).isEmpty = true
  · rw [List.isEmpty_iff] at hE
    simp only [List.append_eq_nil] at hE
    obtain ⟨h1, h2, h3, h4, h5, h6⟩ := hE
    subst h1; subst h2; subst h3; subst h4; subst h5; subst h6
    simp
  · simp [hE]

/-- The sequential appends of `generate_recommendations` amount to
concatenating the six blocks in source order, with the positive message
replacing an empty concatenation. -/
theorem generate_recommendations_split (d : PageSignals) :
    generate_recommendations d =
      if (titleRecs d ++ metaRecs d ++ h1Recs d ++ imgRecs d ++ sslRecs d
          ++ linkRecs d).isEmpty
      then [msgAllGood]
      else titleRecs d ++ metaRecs d ++ h1Recs d ++ imgRecs d ++ sslRecs d ++ linkRecs d := by
  unfold generate_recommendations titleRecs metaRecs h1Recs imgRecs sslRecs linkRecs
  simp only [append_ite, append_ite1, append_ite1r, List.nil_append, List.append_assoc]
  exact isEmpty_append_fallback _ _ _ _ _ _

theorem titleRules_fired (d : PageSignals) :
    ((titleRules.filter (fun r => r.1 d)).map (fun r => r.2 d)) = titleRecs d := by
  unfold titleRules titleRecs
  by_cases h1 : pyFalsy d.title = true <;>
    by_cases h2 : pyStrLen d.title > 60 <;>
    by_cases h3 : pyStrLen d.title < 30 <;>
    simp [h1, h2, h3, List.filter]

theorem metaRules_fired (d : PageSignals) :
    ((metaRules.filter (fun r => r.1 d)).map (fun r => r.2 d)) = metaRecs d := by
  unfold metaRules metaRecs
  by_cases h1 : pyFalsy d.meta_description = true <;>
    by_cases h2 : pyStrLen d.meta_description > 160 <;>
    simp [h1, h2, List.filter]

theorem h1Rules_fired (d : PageSignals) :
    ((h1Rules.filter (fun r => r.1 d)).map (fun r => r.2 d)) = h1Recs d := by
  unfold h1Rules h1Recs
  by_cases h1 : d.h1.length = 0 <;>
    by_cases h2 : d.h1.length > 1 <;>
    simp [h1, h2, List.filter]

theorem imgRules_fired (d : PageSignals) :
    ((imgRules.filter (fun r => r.1 d)).map (fun r => r.2 d)) = imgRecs d := by
  unfold imgRules imgRecs
  by_cases h1 : d.images_without_alt > 0 <;> simp [h1, List.filter]

theorem sslRules_fired (d : PageSignals) :
    ((sslRules.filter (fun r => r.1 d)).map (fun r => r.2 d)) = sslRecs d := by
  unfold sslRules sslRecs
  by_cases h1 : d.has_ssl = true <;> simp [h1, List.filter]

theorem linkRules_fired (d : PageSignals) :
    ((linkRules.filter (fun r => r.1 d)).map (fun r => r.2 d)) = linkRecs d := by
  unfold linkRules linkRecs
  by_cases h1 : d.internal_links < 3 <;> simp [h1, List.filter]

/-- The fired-rule outputs of the table are the six blocks concatenated
in source order. -/
theorem ruleOutputs_eq (d : PageSignals) :
    ruleOutputs d =
      titleRecs d ++ metaRecs d ++ h1Recs d ++ imgRecs d ++ sslRecs d ++ linkRecs d := by
  unfold ruleOutputs recommendationRules
  simp only [List.filter_append, List.map_append, titleRules_fired, metaRules_fired,
    h1Rules_fired, imgRules_fired, sslRules_fired, linkRules_fired, List.append_assoc]

/-- `generate_recommendations` is the rule table: the fired messages in
table order, or the single positive message when no rule fires. -/
theorem generate_recommendations_eq (d : PageSignals) :
    generate_recommendations d =
      if (ruleOutputs d).isEmpty then [msgAllGood] else ruleOutputs d := by
  rw [generate_recommendations_split d, ruleOutputs_eq d]

/-- Claim C6: the recommendation list is never empty; it is exactly the
single positive message when no rule of the ordered table fires, and
exactly the fired rules' messages, in the fixed table order, otherwise. -/
theorem recommendations_nonempty_ordered (d : PageSignals) :
    generate_recommendations d =
      (if (ruleOutputs d).isEmpty then [msgAllGood] else ruleOutputs d) ∧
    generate_recommendations d ≠ [] := by
  refine ⟨generate_recommendations_eq d, ?_⟩
  rw [generate_recommendations_eq d]
  split
  · simp
  · next h =>
    simp only [List.isEmpty_iff] at h
    simpa using h

/-- The interpolated image message never equals the positive message:
their first characters differ. -/
theorem msgImagesAlt_ne_allGood (n : Nat) : msgImagesAlt n ≠ msgAllGood := by
  unfold msgImagesAlt msgAllGood
  intro h
  have hd := congrArg String.data h
  rw [show ("⚠️ " ++ toString n ++ " images missing alt text - Add descriptive alt attributes").data
      = "⚠️ ".data ++ (toString n).data
        ++ " images missing alt text - Add descriptive alt attributes".data by
    simp [String.data_append]] at hd
  rw [show "⚠️ ".data = ['⚠', '️', ' '] from rfl] at hd
  rw [show "✅ Great job! No major SEO issues found.".data
      = '✅' :: " Great job! No major SEO issues found.".data from rfl] at hd
  simp at hd

/-- Claim C10: if the recommender returns exactly the single positive
message, every scoring penalty condition is absent, so the scorer
returns exactly 100. -/
theorem positive_only_implies_perfect_score (d : PageSignals)
    (h : generate_recommendations d = [msgAllGood]) :
    calculate_seo_score d = 100 := by
  have he := generate_recommendations_eq d
  rw [h] at he
  by_cases hempty : (ruleOutputs d).isEmpty = true
  · rw [List.isEmpty_iff, ruleOutputs_eq d] at hempty
    simp only [List.append_eq_nil] at hempty
    obtain ⟨⟨⟨⟨⟨hT, hM⟩, hH⟩, hI⟩, hS⟩, hL⟩ := hempty
    have h1 : pyFalsy d.title = false := by
      unfold titleRecs at hT
      split_ifs at hT with hc1 hc2 hc3
      simpa using hc1
    have h2 : pyFalsy d.meta_description = false := by
      unfold metaRecs at hM
      split_ifs at hM with hc1 hc2
      simpa using hc1
    have h3 : d.h1.length = 1 := by
      unfold h1Recs at hH
      split_ifs at hH
      omega
    have h4 : d.images_without_alt = 0 := by
      unfold imgRecs at hI
      split_ifs at hI
      omega
    have h5 : d.has_ssl = true := by
      unfold sslRecs at hS
      split_ifs at hS with hssl
      exact hssl
    have h6 : ¬ d.internal_links < 3 := by
      unfold linkRecs at hL
      split_ifs at hL with hlink
      exact hlink
    unfold calculate_seo_score
    simp [h1, h2, h3, h4, h5, h6]
  · rw [if_neg hempty] at he
    exfalso
    have hmem : msgAllGood ∈ ruleOutputs d := by
      rw [← he]
      simp
    rw [ruleOutputs_eq d] at hmem
    simp only [List.mem_append] at hmem
    rcases hmem with ((((hm | hm) | hm) | hm) | hm) | hm
    · unfold titleRecs at hm
      split_ifs at hm <;>
        simp_all [msgAllGood, msgTitleMissing, msgTitleTooLong, msgTitleTooShort]
    · unfold metaRecs at hm
      split_ifs at hm <;> simp_all [msgAllGood, msgMetaMissing, msgMetaTooLong]
    · unfold h1Recs at hm
      split_ifs at hm <;> simp_all [msgAllGood, msgH1Missing, msgH1Multiple]
    · unfold imgRecs at hm
      split_ifs at hm <;> simp_all
      exact msgImagesAlt_ne_allGood _ hm.symm
    · unfold sslRecs at hm
      split_ifs at hm <;> simp_all [msgAllGood, msgNoSsl]
    · unfold linkRecs at hm
      split_ifs at hm <;> simp_all [msgAllGood, msgLowInternal]

/-- Witness for `positive_only_implies_perfect_score` at the sample
page, whose only recommendation is the positive message. -/
theorem positive_only_implies_perfect_score_witness :
    calculate_seo_score samplePage = 100 :=
  positive_only_implies_perfect_score samplePage (by decide)

/-- Claim C7: the extractor, scorer and recommender are deterministic
pure functions — equal inputs give equal outputs.  Purity holds by
construction of the embedding: the three source functions read nothing
but their arguments. -/
theorem pipeline_deterministic (doc₁ doc₂ : List Elem) (u₁ u₂ : List Char)
    (d₁ d₂ : PageSignals) (hdoc : doc₁ = doc₂) (hu : u₁ = u₂) (hd : d₁ = d₂) :
    parse_seo_elements doc₁ u₁ = parse_seo_elements doc₂ u₂ ∧
    calculate_seo_score d₁ = calculate_seo_score d₂ ∧
    generate_recommendations d₁ = generate_recommendations d₂ := by
  subst hdoc
  subst hu
  subst hd
  exact ⟨rfl, rfl, rfl⟩

/-- Witness for `pipeline_deterministic` at a concrete document, base
URL and Page Signals value. -/
theorem pipeline_deterministic_witness :
    parse_seo_elements [Elem.h1Tag "Main"] ("https://example.com/".data)
        = parse_seo_elements [Elem.h1Tag "Main"] ("https://example.com/".data) ∧
    calculate_seo_score samplePage = calculate_seo_score samplePage ∧
    generate_recommendations samplePage = generate_recommendations samplePage :=
  pipeline_deterministic [Elem.h1Tag "Main"] [Elem.h1Tag "Main"]
    ("https://example.com/".data) ("https://example.com/".data)
    samplePage samplePage rfl rfl rfl

/-- Claim C4 fails as stated: on a page fetched from
`https://example.com/`, the href `https://evil.com/?ref=example.com` is
a different-host absolute URL — the spec's classification is external —
yet the code classifies it as internal, because line 134 of `main.py`
tests `base_domain in href` (substring containment), not host equality. -/
theorem link_classification_counterexample :
    classifyLink (urlHost ("https://example.com/".data))
        ("https://evil.com/?ref=example.com".data) = LinkClass.internal ∧
    specClassifyLink (urlHost ("https://example.com/".data))
        ("https://evil.com/?ref=example.com".data) = LinkClass.external := by
  constructor
  · decide
  · decide

/-- Claim C4 amended: an href starting with `http` is classified as
internal iff the base domain occurs anywhere in it as a substring (not
iff it is same-host), and external otherwise; any other href is
internal unless it starts with `#` and not with `/`, in which case it
is neither.  The spec's four concrete examples hold as stated. -/
theorem link_classification_amended (b h : List Char) :
    (classifyLink b h = LinkClass.internal ↔
      (pyStartsWith h ("http".data) = true ∧ pyContains h b = true) ∨
      (pyStartsWith h ("http".data) = false ∧
        (pyStartsWith h ("/".data) = true ∨ pyStartsWith h ("#".data) = false))) ∧
    (classifyLink b h = LinkClass.external ↔
      pyStartsWith h ("http".data) = true ∧ pyContains h b = false) ∧
    (classifyLink b h = LinkClass.neither ↔
      pyStartsWith h ("http".data) = false ∧ pyStartsWith h ("/".data) = false ∧
        pyStartsWith h ("#".data) = true) ∧
    classifyLink (urlHost ("https://example.com/".data)) ("https://example.com/x".data)
      = LinkClass.internal ∧
    classifyLink (urlHost ("https://example.com/".data)) ("https://other.com".data)
      = LinkClass.external ∧
    classifyLink (urlHost ("https://example.com/".data)) ("#top".data)
      = LinkClass.neither ∧
    classifyLink (urlHost ("https://example.com/".data)) ("/about".data)
      = LinkClass.internal := by
  refine ⟨?_, ?_, ?_, by decide, by decide, by decide, by decide⟩ <;>
  · by_cases h1 : pyStartsWith h ("http".data) = true <;>
    by_cases h2 : pyContains h b = true <;>
    by_cases h3 : pyStartsWith h ("/".data) = true <;>
    by_cases h4 : pyStartsWith h ("#".data) = true <;>
    simp_all [classifyLink]

/-- Claim C5 fails as stated: in the traffic-estimate path a network
failure yields a 500 (the fetcher's 400 is swallowed by the endpoint's
bare `except Exception`), and a non-200 status is not rejected at all —
an estimate is still produced. -/
theorem traffic_fetch_error_counterexample :
    estimate_traffic (fun _ => []) ("https://example.com/".data)
        (FetchOutcome.failure "timeout") = Except.error 500 ∧
    estimate_traffic (fun _ => []) ("https://example.com/".data)
        (FetchOutcome.success ("x".data) 404 5) ≠ Except.error 400 ∧
    (estimate_traffic (fun _ => []) ("https://example.com/".data)
        (FetchOutcome.success ("x".data) 404 5)).isOk = true := by
  refine ⟨rfl, ?_, rfl⟩
  intro hcontra
  simp [estimate_traffic, fetch_page_content] at hcontra

/-- Claim C5 amended: in the analyze path a fetch failure or a non-200
status yields a 400 error and no Audit Report; in the traffic-estimate
path, which reuses the fetcher, a fetch failure instead yields a 500
and a non-200 status is not checked — the endpoint still succeeds. -/
theorem fetch_error_handling (pf : List Char → List Elem) (u : List Char)
    (msg : String) (html : List Char) (status t : Nat) (hs : status ≠ 200) :
    analyze_seo pf u (FetchOutcome.failure msg) = Except.error 400 ∧
    analyze_seo pf u (FetchOutcome.success html status t) = Except.error 400 ∧
    estimate_traffic pf u (FetchOutcome.failure msg) = Except.error 500 ∧
    (estimate_traffic pf u (FetchOutcome.success html status t)).isOk = true := by
  refine ⟨rfl, ?_, rfl, rfl⟩
  simp [analyze_seo, fetch_page_content, hs]

/-- Witness for `fetch_error_handling` at a concrete parser, URL, body
and status 404. -/
theorem fetch_error_handling_witness :
    analyze_seo (fun _ => []) ("https://example.com/".data)
        (FetchOutcome.failure "boom") = Except.error 400 ∧
    analyze_seo (fun _ => []) ("https://example.com/".data)
        (FetchOutcome.success ("y".data) 404 5) = Except.error 400 ∧
    estimate_traffic (fun _ => []) ("https://example.com/".data)
        (FetchOutcome.failure "boom") = Except.error 500 ∧
    (estimate_traffic (fun _ => []) ("https://example.com/".data)
        (FetchOutcome.success ("y".data) 404 5)).isOk = true :=
  fetch_error_handling (fun _ => []) ("https://example.com/".data) "boom"
    ("y".data) 404 5 (by decide)

theorem pyTrunc_intCast (z : Int) : pyTrunc ((z : ℚ)) = z := by
  unfold pyTrunc
  split
  · exact Int.floor_intCast z
  · exact Int.ceil_intCast z

theorem utf8Len_replicate (n : Nat) (c : Char) :
    utf8Len (List.replicate n c) = n * c.utf8Size := by
  simp [utf8Len, List.map_replicate, List.sum_replicate, smul_eq_mul]

/-- Claim C8 fails as stated: for a body of 50000 two-byte characters
(100000 UTF-8 bytes) the code computes 1 estimated page from
`len(html)` — the character count of the decoded body — while the
spec's byte-length formula gives 2. -/
theorem traffic_pages_counterexample :
    (trafficNumbers (List.replicate 50000 'é') 60).1 = 1 ∧
    specPagesEstimated (List.replicate 50000 'é') = 2 := by
  constructor
  · simp only [trafficNumbers, List.length_replicate]
    norm_num
  · unfold specPagesEstimated
    rw [utf8Len_replicate]
    norm_num [show ('é').utf8Size = 2 from rfl]

theorem roundHalfEven_intCast (n : Int) : roundHalfEven ((n : ℚ)) = n := by
  unfold roundHalfEven
  rw [Int.floor_intCast]
  norm_num

/-- Rounding to the nearest integer moves a value by at most one half. -/
theorem abs_roundHalfEven_sub (x : ℚ) : |((roundHalfEven x : ℚ)) - x| ≤ 1 / 2 := by
  have h1 : ((⌊x⌋ : ℚ)) ≤ x := Int.floor_le x
  have h2 : x < ⌊x⌋ + 1 := Int.lt_floor_add_one x
  unfold roundHalfEven
  split_ifs <;> rw [abs_le] <;> push_cast <;> constructor <;> linarith

/-- Half-ulp error bound of binary64 rounding on positive values. -/
theorem flPos_error (q : ℚ) (hq : 0 < q) : |flPos q - q| ≤ q / 2 ^ 53 := by
  set s := Int.log 2 q with hs
  have hlog : (2 : ℚ) ^ s ≤ q := by
    have := Int.zpow_log_le_self (b := 2) (R := ℚ) (by norm_num) hq
    rw [← hs] at this
    exact_mod_cast this
  have hcancel : (2 : ℚ) ^ ((52 : Int) - s) * 2 ^ (s - 52) = 1 := by
    rw [← zpow_add₀ (by norm_num : (2 : ℚ) ≠ 0)]
    norm_num
  have hq' : q * 2 ^ ((52 : Int) - s) * 2 ^ (s - 52) = q := by
    rw [mul_assoc, hcancel, mul_one]
  have hsplit : flPos q - q
      = (((roundHalfEven (q * 2 ^ ((52 : Int) - s)) : ℚ)) - q * 2 ^ ((52 : Int) - s))
        * 2 ^ (s - 52) := by
    unfold flPos
    rw [← hs, sub_mul, hq']
  have hpow_pos : (0 : ℚ) < 2 ^ (s - 52) := by positivity
  rw [hsplit, abs_mul, abs_of_pos hpow_pos]
  refine le_trans
    (mul_le_mul_of_nonneg_right (abs_roundHalfEven_sub _) hpow_pos.le) ?_
  have heq : (1 / 2 : ℚ) * 2 ^ (s - 52) = 2 ^ s / 2 ^ 53 := by
    rw [show s - 52 = s + (-52) by ring, zpow_add₀ (by norm_num : (2 : ℚ) ≠ 0)]
    norm_num
    ring
  rw [heq]
  exact (div_le_div_iff_of_pos_right (by norm_num)).mpr hlog

theorem fl_zero : fl 0 = 0 := by
  unfold fl
  norm_num

/-- Half-ulp relative error bound of binary64 rounding on nonnegative
values. -/
theorem fl_error (q : ℚ) (hq : 0 ≤ q) : |fl q - q| ≤ q / 2 ^ 53 := by
  rcases eq_or_lt_of_le hq with h | h
  · rw [← h, fl_zero]
    norm_num
  · unfold fl
    rw [if_neg (ne_of_gt h), if_pos h]
    exact flPos_error q h

theorem fl_nonneg (q : ℚ) (hq : 0 ≤ q) : 0 ≤ fl q := by
  have h := (abs_le.mp (fl_error q hq)).1
  have hd : q / 2 ^ 53 ≤ q := div_le_self hq (by norm_num)
  linarith

/-- Binary64 rounding is exact on values `k * 2 ^ t` with a significand
of at most 53 bits. -/
theorem fl_exact (k t : Int) (hk : 0 < k) (hk53 : k < 2 ^ 53) :
    fl ((k : ℚ) * 2 ^ t) = (k : ℚ) * 2 ^ t := by
  have hkq : (0 : ℚ) < (k : ℚ) := by exact_mod_cast hk
  have hq : (0 : ℚ) < (k : ℚ) * 2 ^ t := by positivity
  unfold fl
  rw [if_neg (ne_of_gt hq), if_pos hq]
  unfold flPos
  set s := Int.log 2 ((k : ℚ) * 2 ^ t) with hs
  have hsle : s ≤ t + 52 := by
    by_contra hcon
    push_neg at hcon
    have h1 : (2 : ℚ) ^ s ≤ (k : ℚ) * 2 ^ t := by
      have := Int.zpow_log_le_self (b := 2) (R := ℚ) (by norm_num) hq
      rw [← hs] at this
      exact_mod_cast this
    have h2 : (2 : ℚ) ^ (t + 53) ≤ 2 ^ s := by
      apply zpow_le_zpow_right₀ (by norm_num) (by omega)
    have h3 : (k : ℚ) * 2 ^ t < 2 ^ (t + 53) := by
      rw [show t + 53 = 53 + t by ring, zpow_add₀ (by norm_num : (2 : ℚ) ≠ 0)]
      have hkq53 : (k : ℚ) < 2 ^ (53 : Int) := by exact_mod_cast hk53
      have hp : (0 : ℚ) < 2 ^ t := by positivity
      nlinarith
    linarith
  have hm : (k : ℚ) * 2 ^ t * 2 ^ ((52 : Int) - s)
      = ((k * 2 ^ (t + 52 - s).toNat : Int) : ℚ) := by
    push_cast
    rw [← zpow_natCast (2 : ℚ) (t + 52 - s).toNat, Int.toNat_of_nonneg (by omega),
      mul_assoc, ← zpow_add₀ (by norm_num : (2 : ℚ) ≠ 0)]
    ring_nf
  rw [hm, roundHalfEven_intCast]
  rw [← hm, mul_assoc, ← zpow_add₀ (by norm_num : (2 : ℚ) ≠ 0)]
  norm_num

theorem fl_one : fl 1 = 1 := by
  have h := fl_exact 1 0 (by norm_num) (by norm_num)
  simpa using h

/-- Binary64 rounding is exact on integers below `2 ^ 53` (Python's
int-to-float conversion in this range). -/
theorem fl_intCast (n : Int) (h0 : 0 ≤ n) (h53 : n < 2 ^ 53) : fl ((n : ℚ)) = n := by
  rcases eq_or_lt_of_le h0 with h | h
  · rw [← h]
    simpa using fl_zero
  · simpa using fl_exact n 0 h h53

/-- Binary64 rounding is exact on half-integers with numerator below
`2 ^ 53` — in particular on `visits * 1.5`. -/
theorem fl_half_intCast (n : Int) (h0 : 0 < n) (h53 : n < 2 ^ 53) :
    fl ((n : ℚ) / 2) = (n : ℚ) / 2 := by
  have h := fl_exact n (-1) h0 h53
  rw [show ((2 : ℚ)) ^ ((-1 : Int)) = 1 / 2 by norm_num] at h
  rw [show ((n : ℚ)) / 2 = (n : ℚ) * (1 / 2) by ring]
  exact h

set_option maxHeartbeats 1600000 in
/-- The binary64 visits computation lands within one half of the exact
product `pages * score` when `pages ≤ 2^40` and `score ≤ 100`, so its
truncation is `max 100 (pages * score)` or one less. -/
theorem visits_bounds (p score : Nat) (hp1 : 1 ≤ p) (hp40 : p ≤ 2 ^ 40)
    (hs : score ≤ 100) :
    max 100 ((p : Int) * score) - 1
      ≤ pyTrunc (max 100 (fl (fl (fl ((p : ℚ) * 100) * fl (((score : Int) : ℚ) / 100))
          * fl (domain_age_factor / 50)))) ∧
    pyTrunc (max 100 (fl (fl (fl ((p : ℚ) * 100) * fl (((score : Int) : ℚ) / 100))
        * fl (domain_age_factor / 50)))) ≤ max 100 ((p : Int) * score) := by
  have hg : fl (domain_age_factor / 50) = 1 := by
    rw [show domain_age_factor / 50 = 1 by norm_num [domain_age_factor]]
    exact fl_one
  rw [hg, mul_one]
  set s100 : ℚ := ((score : Int) : ℚ) / 100 with hs100def
  set a : ℚ := (p : ℚ) * 100 with hadef
  set b : ℚ := fl s100 with hbdef
  set m₁ : ℚ := fl a with hm1def
  set m₂ : ℚ := fl (m₁ * b) with hm2def
  set m₃ : ℚ := fl m₂ with hm3def
  set N : ℚ := (p : ℚ) * score with hNdef
  clear_value m₃ m₂ m₁ b N a s100
  have hs0 : (0 : ℚ) ≤ s100 := by
    rw [hs100def]
    positivity
  have hs1 : s100 ≤ 1 := by
    rw [hs100def, div_le_one (by norm_num)]
    exact_mod_cast hs
  have hpq1 : (1 : ℚ) ≤ (p : ℚ) := by exact_mod_cast hp1
  have hpq40 : (p : ℚ) ≤ 2 ^ 40 := by exact_mod_cast hp40
  have hsq : ((score : ℕ) : ℚ) ≤ 100 := by exact_mod_cast hs
  have hsq0 : (0 : ℚ) ≤ ((score : ℕ) : ℚ) := by positivity
  have ha100 : (100 : ℚ) ≤ a := by
    rw [hadef]
    nlinarith
  have haU : a ≤ 2 ^ 47 := by
    rw [hadef]
    nlinarith
  have hN0 : (0 : ℚ) ≤ N := by
    rw [hNdef]
    positivity
  have hNU : N ≤ 2 ^ 47 := by
    rw [hNdef]
    nlinarith
  have hNeq : a * s100 = N := by
    rw [hadef, hs100def, hNdef]
    push_cast
    ring
  have hbe : -(s100 / 2 ^ 53) ≤ b - s100 ∧ b - s100 ≤ s100 / 2 ^ 53 := by
    rw [hbdef]
    exact abs_le.mp (fl_error s100 hs0)
  have hb0 : (0 : ℚ) ≤ b := by
    rw [hbdef]
    exact fl_nonneg _ hs0
  have hm1e : -(a / 2 ^ 53) ≤ m₁ - a ∧ m₁ - a ≤ a / 2 ^ 53 := by
    rw [hm1def]
    exact abs_le.mp (fl_error a (by linarith))
  have hm10 : (0 : ℚ) ≤ m₁ := by
    rw [hm1def]
    exact fl_nonneg _ (by linarith)
  have hm1b0 : (0 : ℚ) ≤ m₁ * b := mul_nonneg hm10 hb0
  have hm2e : -((m₁ * b) / 2 ^ 53) ≤ m₂ - m₁ * b ∧ m₂ - m₁ * b ≤ (m₁ * b) / 2 ^ 53 := by
    rw [hm2def]
    exact abs_le.mp (fl_error (m₁ * b) hm1b0)
  have hm20 : (0 : ℚ) ≤ m₂ := by
    rw [hm2def]
    exact fl_nonneg _ hm1b0
  have hm3e : -(m₂ / 2 ^ 53) ≤ m₃ - m₂ ∧ m₃ - m₂ ≤ m₂ / 2 ^ 53 := by
    rw [hm3def]
    exact abs_le.mp (fl_error m₂ hm20)
  clear hbdef hm1def hm2def hm3def hs100def hadef
  -- absolute error of the first rounding steps
  have hsd : s100 / 2 ^ 53 ≤ 1 / 2 ^ 53 :=
    (div_le_div_iff_of_pos_right (by norm_num)).mpr hs1
  have had : a / 2 ^ 53 ≤ 1 / 64 := by
    calc a / 2 ^ 53 ≤ 2 ^ 47 / 2 ^ 53 :=
          (div_le_div_iff_of_pos_right (by norm_num)).mpr haU
      _ = 1 / 64 := by norm_num
  have hb2 : b ≤ 2 := by linarith [hbe.2, hsd]
  -- |m₁ b − N| ≤ 3/64
  have hkey1 : m₁ * b - N = (m₁ - a) * b + a * (b - s100) := by
    rw [← hNeq]
    ring
  have hub1 : (m₁ - a) * b ≤ (1 / 64) * 2 := by
    apply mul_le_mul (by linarith [hm1e.2, had]) hb2 hb0 (by norm_num)
  have hlb1 : -((1 / 64 : ℚ) * 2) ≤ (m₁ - a) * b := by
    have h1 : -(1 / 64 : ℚ) ≤ m₁ - a := by linarith [hm1e.1, had]
    have h2 : (-(1 / 64 : ℚ)) * b ≤ (m₁ - a) * b :=
      mul_le_mul_of_nonneg_right h1 hb0
    have h3 : (-(1 / 64 : ℚ)) * b = -(b / 64) := by ring
    linarith [hb2]
  have hub2 : a * (b - s100) ≤ 1 / 64 := by
    calc a * (b - s100) ≤ a * (1 / 2 ^ 53) := by
          apply mul_le_mul_of_nonneg_left (by linarith [hbe.2, hsd]) (by linarith)
      _ ≤ 2 ^ 47 * (1 / 2 ^ 53) := by
          apply mul_le_mul_of_nonneg_right haU (by norm_num)
      _ = 1 / 64 := by norm_num
  have hlb2 : -(1 / 64 : ℚ) ≤ a * (b - s100) := by
    have h1 : -(1 / 2 ^ 53 : ℚ) ≤ b - s100 := by linarith [hbe.1, hsd]
    have h2 : a * (-(1 / 2 ^ 53)) ≤ a * (b - s100) :=
      mul_le_mul_of_nonneg_left h1 (by linarith)
    have h3 : a * (-(1 / 2 ^ 53 : ℚ)) = -(a / 2 ^ 53) := by ring
    linarith [had]
  have hmb_ub : m₁ * b ≤ N + 3 / 64 := by linarith [hkey1, hub1, hub2]
  have hmb_lb : N - 3 / 64 ≤ m₁ * b := by linarith [hkey1, hlb1, hlb2]
  -- second rounding
  have hmbU : m₁ * b ≤ 2 ^ 47 + 1 := by linarith
  have hd2 : (m₁ * b) / 2 ^ 53 ≤ 1 / 32 := by
    calc (m₁ * b) / 2 ^ 53 ≤ (2 ^ 47 + 1) / 2 ^ 53 :=
          (div_le_div_iff_of_pos_right (by norm_num)).mpr hmbU
      _ ≤ 1 / 32 := by norm_num
  have hm2_ub : m₂ ≤ N + 3 / 64 + 1 / 32 := by linarith [hm2e.2, hd2]
  have hm2_lb : N - 3 / 64 - 1 / 32 ≤ m₂ := by linarith [hm2e.1, hd2]
  -- third rounding (the multiplication by the exact factor 1)
  have hm2U : m₂ ≤ 2 ^ 47 + 1 := by linarith
  have hd3 : m₂ / 2 ^ 53 ≤ 1 / 32 := by
    calc m₂ / 2 ^ 53 ≤ (2 ^ 47 + 1) / 2 ^ 53 :=
          (div_le_div_iff_of_pos_right (by norm_num)).mpr hm2U
      _ ≤ 1 / 32 := by norm_num
  have hm3_ub : m₃ < N + 1 / 2 := by linarith [hm3e.2, hd3]
  have hm3_lb : N - 1 / 2 < m₃ := by linarith [hm3e.1, hd3]
  -- truncation
  have hMcast : ((max 100 ((p : Int) * score) : Int) : ℚ) = max 100 N := by
    rw [Int.cast_max]
    rw [hNdef]
    push_cast
    norm_num
  have hme_lb : ((max 100 ((p : Int) * score) : Int) : ℚ) - 1 / 2 < max 100 m₃ := by
    rw [hMcast]
    rcases le_total (100 : ℚ) N with h | h
    · rw [max_eq_right h]
      calc N - 1 / 2 < m₃ := hm3_lb
        _ ≤ max 100 m₃ := le_max_right _ _
    · rw [max_eq_left h]
      have hx : (100 : ℚ) ≤ max 100 m₃ := le_max_left _ _
      linarith
  have hme_ub : max 100 m₃ ≤ ((max 100 ((p : Int) * score) : Int) : ℚ) + 1 / 2 := by
    rw [hMcast]
    apply max_le
    · have hx : (100 : ℚ) ≤ max 100 N := le_max_left _ _
      linarith
    · have hx : N ≤ max 100 N := le_max_right _ _
      linarith
  have hme_pos : (0 : ℚ) ≤ max 100 m₃ := le_trans (by norm_num) (le_max_left _ _)
  unfold pyTrunc
  rw [if_pos hme_pos]
  constructor
  · rw [Int.le_floor, Int.cast_sub, Int.cast_one]
    linarith
  · have hup : ⌊max 100 m₃⌋ < max 100 ((p : Int) * score) + 1 := by
      rw [Int.floor_lt, Int.cast_add, Int.cast_one]
      linarith
    omega

/-- Claim C8 amended: with `content_length` the character count of the
decoded body (the code's `len(html)`, not its byte length), estimated
pages = max(1, length / 50000).  The visits formula
`max(100, pages × 100 × score/100 × (domain_age_factor/50))` is
evaluated in binary64 floating point and then truncated; the fixed
factor `domain_age_factor/50` is exactly 1, and for scores up to 100
and bodies under `50000 · 2^40` characters the truncated result is
`max(100, pages × score)` or exactly one less (the float product can
land just below the exact integer, e.g. `int(200 * 0.57) = 113`).
Estimated page views = `int(visits × 1.5)`, which equals
`3 × visits / 2` exactly, because `visits × 1.5` is exactly
representable in binary64 at these magnitudes. -/
theorem traffic_formula (html : List Char) (score : Nat)
    (hs : score ≤ 100) (hlen : html.length < 50000 * 2 ^ 40) :
    (trafficNumbers html (score : Int)).1 = max 1 (html.length / 50000) ∧
    max 100 (((max 1 (html.length / 50000) : Nat) : Int) * score) - 1
      ≤ (trafficNumbers html (score : Int)).2.1 ∧
    (trafficNumbers html (score : Int)).2.1
      ≤ max 100 (((max 1 (html.length / 50000) : Nat) : Int) * score) ∧
    (trafficNumbers html (score : Int)).2.2
      = 3 * (trafficNumbers html (score : Int)).2.1 / 2 ∧
    fl (domain_age_factor / 50) = 1 := by
  have hp1 : 1 ≤ max 1 (html.length / 50000) := le_max_left _ _
  have hp40 : max 1 (html.length / 50000) ≤ 2 ^ 40 := by
    have hdiv : html.length / 50000 < 2 ^ 40 := Nat.div_lt_of_lt_mul hlen
    omega
  have hb := visits_bounds (max 1 (html.length / 50000)) score hp1 hp40 hs
  have hv : (trafficNumbers html (score : Int)).2.1
      = pyTrunc (max 100 (fl (fl (fl (((max 1 (html.length / 50000) : Nat) : ℚ) * 100)
          * fl (((score : Int) : ℚ) / 100)) * fl (domain_age_factor / 50)))) := rfl
  rw [← hv] at hb
  refine ⟨rfl, hb.1, hb.2, ?_, ?_⟩
  · -- page views
    have hps : ((max 1 (html.length / 50000) : Nat) : Int) * score ≤ 2 ^ 47 := by
      have h1 : ((max 1 (html.length / 50000) : Nat) : Int) ≤ 2 ^ 40 := by
        exact_mod_cast hp40
      have h2 : ((score : Nat) : Int) ≤ 100 := by exact_mod_cast hs
      have h3 : (0 : Int) ≤ ((max 1 (html.length / 50000) : Nat) : Int) := by positivity
      have h4 : (0 : Int) ≤ ((score : Nat) : Int) := by positivity
      nlinarith
    have hvU : (trafficNumbers html (score : Int)).2.1 ≤ 2 ^ 47 := by
      have := hb.2
      omega
    have hv99 : (99 : Int) ≤ (trafficNumbers html (score : Int)).2.1 := by
      have := hb.1
      omega
    have hview : (trafficNumbers html (score : Int)).2.2
        = pyTrunc (fl (fl (((trafficNumbers html (score : Int)).2.1 : ℚ)) * (3 / 2))) :=
      rfl
    rw [hview]
    have hfl_v : fl (((trafficNumbers html (score : Int)).2.1 : ℚ))
        = ((trafficNumbers html (score : Int)).2.1 : ℚ) :=
      fl_intCast _ (by omega) (by omega)
    rw [hfl_v]
    have hcast : (((trafficNumbers html (score : Int)).2.1 : ℚ)) * (3 / 2)
        = ((3 * (trafficNumbers html (score : Int)).2.1 : Int) : ℚ) / 2 := by
      push_cast
      ring
    rw [hcast]
    rw [fl_half_intCast _ (by omega) (by omega)]
    rw [show ((3 * (trafficNumbers html (score : Int)).2.1 : Int) : ℚ) / 2
        = ((3 * (trafficNumbers html (score : Int)).2.1 : Int) : ℚ) / (((2 : Nat)) : ℚ)
      by norm_num]
    unfold pyTrunc
    rw [if_pos (by positivity)]
    exact Rat.floor_intCast_div_natCast _ 2
  · rw [show domain_age_factor / 50 = 1 by norm_num [domain_age_factor]]
    exact fl_one

/-- Witness for `traffic_formula` at a one-character body and score 60. -/
theorem traffic_formula_witness :
    (trafficNumbers ("x".data) ((60 : Nat) : Int)).1
      = max 1 (("x".data).length / 50000) ∧
    max 100 (((max 1 (("x".data).length / 50000) : Nat) : Int) * (60 : Nat)) - 1
      ≤ (trafficNumbers ("x".data) ((60 : Nat) : Int)).2.1 ∧
    (trafficNumbers ("x".data) ((60 : Nat) : Int)).2.1
      ≤ max 100 (((max 1 (("x".data).length / 50000) : Nat) : Int) * (60 : Nat)) ∧
    (trafficNumbers ("x".data) ((60 : Nat) : Int)).2.2
      = 3 * (trafficNumbers ("x".data) ((60 : Nat) : Int)).2.1 / 2 ∧
    fl (domain_age_factor / 50) = 1 :=
  traffic_formula ("x".data) 60 (by decide) (by decide)

end SeoAudit
